import Mathlib

/-!
Shallow embedding of `src/gamepad-lock-inhibit.py`.

The script wires four components together:
* `GamepadsWatcher` — a supervisor holding a `Dict[str, asyncio.Task]` of
  per-device monitor tasks plus a shared `gamepad_active` flag;
* per-device monitor coroutines (`monitor_gamepad_events`) that set the flag
  and classify their own termination;
* `IdleLock` — an idempotent wrapper over a logind `Inhibit` file descriptor;
* `inhibit_idle_when_gamepads_active` — the periodic bridge loop.

Python dictionaries are modelled as association lists with unique keys
maintained by the operations (`dictGet`/`dictSet`/`eraseKey` mirror
`d.get(k, None)`, `d[k] = v` and `del d[k]`).  Python exceptions are modelled
with `Except`: `KeyError` (a `del`/index of a missing key),
`AttributeError` (`None.cancel()`), and the dbus exception raised by a failed
`Inhibit` call.  Log statements, task cancellations and handle closes are
recorded as an event trace so that claims about logging levels and call
order can be stated.
-/

/-- Events observable from the outside: log lines by level, task
cancellation, awaiting a task, closing an fd, and the bridge's calls into
`IdleLock`. -/
inductive Ev where
  | logInfo (msg : String)
  | logWarn (msg : String)
  | logError (msg : String)
  | cancelTask (t : Nat)
  | awaitTask (t : Nat)
  | closeFd (h : Nat)
  | callLockIdle
  | callUnlockIdle
deriving Repr, DecidableEq

/-- Python exceptions that the modelled code can raise. -/
inductive PyErr where
  | keyError
  | attributeError
deriving Repr, DecidableEq

/-- `d.get(k, None)` on an association list: first matching key. -/
def dictGet {α : Type} : List (String × α) → String → Option α
  | [], _ => none
  | (k, v) :: rest, k0 => if k = k0 then some v else dictGet rest k0

/-- `d[k] = v`: replace the first binding of `k`, or append a new one. -/
def dictSet {α : Type} : List (String × α) → String → α → List (String × α)
  | [], k0, v0 => [(k0, v0)]
  | (k, v) :: rest, k0, v0 =>
    if k = k0 then (k0, v0) :: rest else (k, v) :: dictSet rest k0 v0

/-- `del d[k]` (the successful case): drop every binding of `k`.  On lists
with unique keys this is exactly Python's deletion. -/
def eraseKey {α : Type} : List (String × α) → String → List (String × α)
  | [], _ => []
  | (k, v) :: rest, k0 =>
    if k = k0 then eraseKey rest k0 else (k, v) :: eraseKey rest k0

/-- Number of bindings of a key; the unique-key invariant says this is ≤ 1. -/
def countKey {α : Type} (m : List (String × α)) (k : String) : Nat :=
  (m.filter (fun e => e.1 = k)).length

/-- State of the `GamepadsWatcher` object: the shared activity flag, the
`started` flag, the `tasks` dict (a `None` value is a registered device whose
monitor has not been started), the `devices` dict of open `InputDevice`
handles, and a counter supplying fresh task/handle identifiers (standing in
for `asyncio.create_task` and `evdev.InputDevice` allocation). -/
structure GamepadsWatcher where
  gamepad_active : Bool
  started : Bool
  tasks : List (String × Option Nat)
  devices : List (String × Nat)
  nextId : Nat
deriving Repr, DecidableEq

/-- The freshly constructed watcher (`GamepadsWatcher.__init__`). -/
def initialWatcher : GamepadsWatcher := ⟨false, false, [], [], 0⟩

namespace GamepadsWatcher

/-- Replace the `tasks` field. -/
def setTasks (s : GamepadsWatcher) (t : List (String × Option Nat)) :
    GamepadsWatcher :=
  ⟨s.gamepad_active, s.started, t, s.devices, s.nextId⟩

/-- Replace the `devices` field. -/
def setDevices (s : GamepadsWatcher) (d : List (String × Nat)) :
    GamepadsWatcher :=
  ⟨s.gamepad_active, s.started, s.tasks, d, s.nextId⟩

/-- Replace the `started` flag. -/
def setStarted (s : GamepadsWatcher) (b : Bool) : GamepadsWatcher :=
  ⟨s.gamepad_active, b, s.tasks, s.devices, s.nextId⟩

/-- Replace the activity flag. -/
def setActive (s : GamepadsWatcher) (b : Bool) : GamepadsWatcher :=
  ⟨b, s.started, s.tasks, s.devices, s.nextId⟩

/-- `set_init_devices`: register every discovered path with a `None` task. -/
def set_init_devices (s : GamepadsWatcher) (devs : List String) :
    GamepadsWatcher :=
  devs.foldl (fun acc d => acc.setTasks (dictSet acc.tasks d none)) s

/-- `create_monitor_task`: open the device (fresh handle `nextId`), store it
in `devices`, create the monitor task (fresh id `nextId + 1`) in `tasks`,
and register `finish_removing_device` as its done callback (modelled as a
separate `finish` step). -/
def create_monitor_task (s : GamepadsWatcher) (p : String) : GamepadsWatcher :=
  ⟨s.gamepad_active, s.started,
   dictSet s.tasks p (some (s.nextId + 1)),
   dictSet s.devices p s.nextId,
   s.nextId + 2⟩

/-- `add_device`.  `self.tasks.get(device, None)` yields `None` both for an
absent key and for a registered-not-started (`None`) entry, so only an entry
holding an actual task triggers the "already present" warning. -/
def add_device (s : GamepadsWatcher) (p : String) :
    GamepadsWatcher × List Ev :=
  match dictGet s.tasks p with
  | some (some _) =>
    (s, [Ev.logInfo "Adding device", Ev.logWarn "device is already present"])
  | _ =>
    if s.started then
      (s.create_monitor_task p, [Ev.logInfo "Adding device"])
    else
      (s.setTasks (dictSet s.tasks p none), [Ev.logInfo "Adding device"])

/-- `remove_device`.  A `None`-or-absent lookup does `del self.tasks[device]`
inside `try/except KeyError`.  A present task is cancelled, then
`self.devices[device]` is closed and deleted (an uncaught `KeyError` if the
handle is missing); the `tasks` entry survives until the done callback. -/
def remove_device (s : GamepadsWatcher) (p : String) :
    Except PyErr (GamepadsWatcher × List Ev) :=
  match dictGet s.tasks p with
  | some (some t) =>
    match dictGet s.devices p with
    | some h =>
      .ok (s.setDevices (eraseKey s.devices p),
        [Ev.logInfo "Removing device", Ev.cancelTask t, Ev.closeFd h])
    | none => .error .keyError
  | _ =>
    if (dictGet s.tasks p).isSome then
      .ok (s.setTasks (eraseKey s.tasks p), [Ev.logInfo "Removing device"])
    else
      .ok (s, [Ev.logInfo "Removing device"])

/-- `finish_removing_device`, the task-done callback: a bare
`del self.tasks[device]`, raising `KeyError` when the entry is absent. -/
def finish_removing_device (s : GamepadsWatcher) (p : String) :
    Except PyErr GamepadsWatcher :=
  if (dictGet s.tasks p).isSome then .ok (s.setTasks (eraseKey s.tasks p))
  else .error .keyError

/-- `start`: set the `started` flag, then create a monitor task for every
key currently in `tasks`. -/
def start (s : GamepadsWatcher) : GamepadsWatcher × List Ev :=
  let s1 := s.setStarted true
  let keys := s1.tasks.map Prod.fst
  (keys.foldl (fun acc k => acc.create_monitor_task k) s1,
   keys.map (fun _ => Ev.logInfo "create monitor"))

/-- The cancellation loop inside `stop`: `for task in tasks: task.cancel()`.
Hitting a `None` value raises `AttributeError` (`None` has no `cancel`). -/
def cancel_all : List (Option Nat) → Except PyErr (List Ev)
  | [] => .ok []
  | some t :: rest =>
    match cancel_all rest with
    | .ok evs => .ok (Ev.cancelTask t :: evs)
    | .error e => .error e
  | none :: _ => .error .attributeError

/-- `stop`: clear `started`, cancel every value of `tasks`, then
`await asyncio.gather(*tasks)` (recorded as an `awaitTask` per task).  The
`started = False` assignment precedes the loop, so on `AttributeError` it has
already happened; the `Except` result keeps only the raised error. -/
def stop (s : GamepadsWatcher) : Except PyErr (GamepadsWatcher × List Ev) :=
  match cancel_all (s.tasks.map Prod.snd) with
  | .ok cevs =>
    .ok (s.setStarted false,
      cevs ++ ((s.tasks.map Prod.snd).filterMap id).map Ev.awaitTask)
  | .error e => .error e

/-- `get_and_reset_active`: return the flag and clear it. -/
def get_and_reset_active (s : GamepadsWatcher) : Bool × GamepadsWatcher :=
  (s.gamepad_active, s.setActive false)

end GamepadsWatcher

/-- How a monitor task's read loop terminates: cancellation, or an `OSError`
with the given `errno`. -/
inductive TaskEnd where
  | cancelled
  | osError (errno : Nat)
deriving Repr, DecidableEq

/-- The exception handlers at the bottom of `monitor_gamepad_events`:
cancellation and errno 19 ("No such device") log at info level, any other
`OSError` logs at error level; in all three cases the coroutine returns
normally (nothing is re-raised). -/
def monitor_gamepad_events_exit (e : TaskEnd) : List Ev :=
  match e with
  | .cancelled => [Ev.logInfo "monitor exits"]
  | .osError n =>
    if n = 19 then [Ev.logInfo "disconnected, exit monitor"]
    else [Ev.logError "monitor failed with error"]

/-- State of the `IdleLock` object: the optional inhibition fd. -/
structure IdleLock where
  fd : Option Nat
deriving Repr, DecidableEq

/-- Outcome of a call into `IdleLock.lock_idle`: normal return with the new
object state, or a propagating dbus exception. -/
inductive LockResult where
  | ok (l : IdleLock)
  | raised
deriving Repr, DecidableEq

namespace IdleLock

/-- `lock_idle`.  The method has no exception handler: when `self.fd` is
unset it logs at info level and calls `Inhibit`; a failing call (the
`.error` oracle) propagates out with `self.fd` still unset. -/
def lock_idle (l : IdleLock) (inh : Except Unit Nat) :
    List Ev × LockResult :=
  match l.fd with
  | some _ => ([], .ok l)
  | none =>
    match inh with
    | .ok h => ([Ev.logInfo "Inhibiting idle"], .ok ⟨some h⟩)
    | .error _ => ([Ev.logInfo "Inhibiting idle"], .raised)

/-- `unlock_idle`: release and clear the fd when held, otherwise no-op. -/
def unlock_idle (l : IdleLock) : List Ev × IdleLock :=
  match l.fd with
  | some h => ([Ev.logInfo "Releasing idle lock", Ev.closeFd h], ⟨none⟩)
  | none => ([], ⟨none⟩)

end IdleLock

/-- The body of one sampling tick of the bridge loop, after the sleep:
`active = watcher.get_and_reset_active(); if active: lock.lock_idle()
else: lock.unlock_idle()`.  `inh` is the `Inhibit` oracle for this tick. -/
def bridge_tick (w : GamepadsWatcher) (l : IdleLock) (inh : Except Unit Nat) :
    List Ev × GamepadsWatcher × LockResult :=
  let aw := w.get_and_reset_active
  if aw.1 then
    let r := l.lock_idle inh
    (Ev.callLockIdle :: r.1, aw.2, r.2)
  else
    let r := l.unlock_idle
    (Ev.callUnlockIdle :: r.1, aw.2, .ok r.2)

deriving instance DecidableEq for Except

/-- How a run of the bridge loop terminates: by cancellation at the sleep
(after the `except asyncio.CancelledError` handler ran), or by an uncaught
dbus exception from `lock_idle`, recorded with the ticks it never reached. -/
inductive BridgeResult where
  | cancelled (w : GamepadsWatcher) (l : IdleLock)
  | raised (w : GamepadsWatcher) (l : IdleLock)
      (remaining : List (Bool × Except Unit Nat))
deriving Repr, DecidableEq

/-- `inhibit_idle_when_gamepads_active`, run over a finite schedule.  Each
schedule entry `(a, inh)` is one completed sleep: `a` says whether any
monitor task set `gamepad_active` during the window, `inh` is that tick's
`Inhibit` oracle.  After the last entry the task is cancelled at its sleep;
the handler logs, performs the one final `unlock_idle()` and re-raises
(its events are the second component).  A dbus exception is not a
`CancelledError`, so it skips the handler and ends the loop early. -/
def inhibit_idle_when_gamepads_active (w : GamepadsWatcher) (l : IdleLock) :
    List (Bool × Except Unit Nat) → List Ev × List Ev × BridgeResult
  | [] =>
    let r := l.unlock_idle
    ([], Ev.logInfo "Inhibit task exits" :: Ev.callUnlockIdle :: r.1,
     .cancelled w r.2)
  | (a, inh) :: rest =>
    let w1 := w.setActive (w.gamepad_active || a)
    let step := bridge_tick w1 l inh
    match step.2.2 with
    | .raised => (step.1, [], .raised step.2.1 l rest)
    | .ok l2 =>
      let cont := inhibit_idle_when_gamepads_active step.2.1 l2 rest
      (step.1 ++ cont.1, cont.2.1, cont.2.2)

/-- One supervisor-facing event on the control loop: a hotplug add/remove
callback, a task-done callback, the global start/stop, or the initial
registration of discovered devices. -/
inductive WOp where
  | add (p : String)
  | remove (p : String)
  | finish (p : String)
  | startAll
  | stopAll
  | initDevs (ds : List String)
deriving Repr, DecidableEq

/-- Apply one supervisor event to the watcher state (events dropped). -/
def stepOp (s : GamepadsWatcher) : WOp → Except PyErr GamepadsWatcher
  | .add p => .ok (s.add_device p).1
  | .remove p => (s.remove_device p).map (·.1)
  | .finish p => s.finish_removing_device p
  | .startAll => .ok s.start.1
  | .stopAll => s.stop.map (·.1)
  | .initDevs ds => .ok (s.set_init_devices ds)

/-- Run a sequence of supervisor events; the first uncaught Python
exception aborts the run. -/
def runOps (s : GamepadsWatcher) : List WOp → Except PyErr GamepadsWatcher
  | [] => .ok s
  | op :: rest =>
    match stepOp s op with
    | .ok s1 => runOps s1 rest
    | .error e => .error e

/-- The task-map uniqueness invariant: every device path has at most one
binding in `tasks`. -/
def TasksOnce (s : GamepadsWatcher) : Prop := ∀ p, countKey s.tasks p ≤ 1

theorem countKey_nil {α : Type} (k : String) :
    countKey ([] : List (String × α)) k = 0 := rfl

theorem countKey_cons {α : Type} (a : String) (b : α) (m : List (String × α))
    (k : String) :
    countKey ((a, b) :: m) k = (if a = k then 1 else 0) + countKey m k := by
  by_cases h : a = k <;> simp [countKey, List.filter_cons, h, Nat.add_comm]

theorem countKey_dictSet_ne {α : Type} (m : List (String × α)) (k k' : String)
    (v : α) (h : k ≠ k') :
    countKey (dictSet m k v) k' = countKey m k' := by
  induction m with
  | nil => simp [dictSet, countKey_cons, countKey_nil, h]
  | cons hd tl ih =>
    obtain ⟨a, b⟩ := hd
    by_cases ha : a = k <;> simp [dictSet, ha, countKey_cons, ih, h]

theorem countKey_dictSet_self {α : Type} (m : List (String × α)) (k : String)
    (v : α) (h : countKey m k ≤ 1) :
    countKey (dictSet m k v) k = 1 := by
  induction m with
  | nil => simp [dictSet, countKey_cons, countKey_nil]
  | cons hd tl ih =>
    obtain ⟨a, b⟩ := hd
    by_cases ha : a = k
    · subst ha
      rw [countKey_cons] at h
      simp at h
      simp [dictSet, countKey_cons, h]
    · rw [countKey_cons] at h
      simp [ha] at h
      simp [dictSet, ha, countKey_cons, ih h]

theorem countKey_eraseKey_self {α : Type} (m : List (String × α)) (k : String) :
    countKey (eraseKey m k) k = 0 := by
  induction m with
  | nil => rfl
  | cons hd tl ih =>
    obtain ⟨a, b⟩ := hd
    by_cases ha : a = k <;> simp [eraseKey, ha, countKey_cons, ih]

theorem countKey_eraseKey_ne {α : Type} (m : List (String × α)) (k k' : String)
    (h : k ≠ k') :
    countKey (eraseKey m k) k' = countKey m k' := by
  induction m with
  | nil => rfl
  | cons hd tl ih =>
    obtain ⟨a, b⟩ := hd
    by_cases ha : a = k
    · subst ha
      simp [eraseKey, countKey_cons, ih, h]
    · simp [eraseKey, ha, countKey_cons, ih]

theorem countKey_dictSet_le_one {α : Type} (m : List (String × α))
    (k k' : String) (v : α) (h : countKey m k' ≤ 1) :
    countKey (dictSet m k v) k' ≤ 1 := by
  by_cases hk : k = k'
  · subst hk
    rw [countKey_dictSet_self m k v h]
  · rw [countKey_dictSet_ne m k k' v hk]
    exact h

theorem countKey_eraseKey_le_one {α : Type} (m : List (String × α))
    (k k' : String) (h : countKey m k' ≤ 1) :
    countKey (eraseKey m k) k' ≤ 1 := by
  by_cases hk : k = k'
  · subst hk
    rw [countKey_eraseKey_self]
    exact Nat.zero_le 1
  · rw [countKey_eraseKey_ne m k k' hk]
    exact h

theorem foldl_preserves {α β : Type} (P : α → Prop) (f : α → β → α)
    (hf : ∀ s b, P s → P (f s b)) :
    ∀ (l : List β) (s : α), P s → P (l.foldl f s) := by
  intro l
  induction l with
  | nil => intro s hs; exact hs
  | cons hd tl ih => intro s hs; exact ih (f s hd) (hf s hd hs)

theorem tasksOnce_setTasks (s : GamepadsWatcher) (t : List (String × Option Nat))
    (h : ∀ p, countKey t p ≤ 1) : TasksOnce (s.setTasks t) := h

theorem tasksOnce_create_monitor_task (s : GamepadsWatcher) (p : String)
    (h : TasksOnce s) : TasksOnce (s.create_monitor_task p) := by
  intro p'
  exact countKey_dictSet_le_one s.tasks p p' _ (h p')

theorem tasksOnce_add_device (s : GamepadsWatcher) (p : String)
    (h : TasksOnce s) : TasksOnce (s.add_device p).1 := by
  unfold GamepadsWatcher.add_device
  rcases hg : dictGet s.tasks p with _ | v
  · simp only [hg]
    by_cases hs : s.started
    · simpa [hs] using tasksOnce_create_monitor_task s p h
    · simp only [hs, if_false]
      exact fun p' => countKey_dictSet_le_one s.tasks p p' none (h p')
  · rcases v with _ | t
    · simp only [hg]
      by_cases hs : s.started
      · simpa [hs] using tasksOnce_create_monitor_task s p h
      · simp only [hs, if_false]
        exact fun p' => countKey_dictSet_le_one s.tasks p p' none (h p')
    · simpa [hg] using h

theorem tasksOnce_remove_device (s s' : GamepadsWatcher) (p : String)
    (evs : List Ev) (h : TasksOnce s) (hr : s.remove_device p = .ok (s', evs)) :
    TasksOnce s' := by
  unfold GamepadsWatcher.remove_device at hr
  rcases hg : dictGet s.tasks p with _ | v
  · simp only [hg, Option.isSome_none, Bool.false_eq_true, if_false] at hr
    cases hr
    exact h
  · rcases v with _ | t
    · simp only [hg, Option.isSome_some, if_true] at hr
      cases hr
      exact fun p' => countKey_eraseKey_le_one s.tasks p p' (h p')
    · simp only [hg] at hr
      rcases hd : dictGet s.devices p with _ | dh
      · simp [hd] at hr
      · simp only [hd] at hr
        cases hr
        exact h

theorem tasksOnce_finish_removing_device (s s' : GamepadsWatcher) (p : String)
    (h : TasksOnce s) (hr : s.finish_removing_device p = .ok s') :
    TasksOnce s' := by
  unfold GamepadsWatcher.finish_removing_device at hr
  by_cases hg : (dictGet s.tasks p).isSome
  · simp only [hg, if_true] at hr
    cases hr
    exact fun p' => countKey_eraseKey_le_one s.tasks p p' (h p')
  · simp [hg] at hr

theorem tasksOnce_start (s : GamepadsWatcher) (h : TasksOnce s) :
    TasksOnce s.start.1 := by
  unfold GamepadsWatcher.start
  exact foldl_preserves TasksOnce (fun acc k => acc.create_monitor_task k)
    (fun s0 k h0 => tasksOnce_create_monitor_task s0 k h0) _ _ h

theorem tasksOnce_set_init_devices (s : GamepadsWatcher) (ds : List String)
    (h : TasksOnce s) : TasksOnce (s.set_init_devices ds) := by
  unfold GamepadsWatcher.set_init_devices
  exact foldl_preserves TasksOnce
    (fun acc d => acc.setTasks (dictSet acc.tasks d none))
    (fun s0 d h0 => fun p' => countKey_dictSet_le_one s0.tasks d p' none (h0 p'))
    _ _ h

theorem tasksOnce_stop (s s' : GamepadsWatcher) (evs : List Ev)
    (h : TasksOnce s) (hr : s.stop = .ok (s', evs)) : TasksOnce s' := by
  unfold GamepadsWatcher.stop at hr
  rcases hc : GamepadsWatcher.cancel_all (s.tasks.map Prod.snd) with e | cevs
  · simp [hc] at hr
  · simp only [hc] at hr
    cases hr
    exact h

theorem stepOp_tasksOnce (s s' : GamepadsWatcher) (op : WOp)
    (h : TasksOnce s) (hr : stepOp s op = .ok s') : TasksOnce s' := by
  cases op with
  | add p =>
    cases hr
    exact tasksOnce_add_device s p h
  | remove p =>
    unfold stepOp at hr
    rcases hres : s.remove_device p with e | pair
    · simp [hres, Except.map] at hr
    · obtain ⟨s1, evs⟩ := pair
      simp only [hres, Except.map] at hr
      injection hr with h2
      subst h2
      exact tasksOnce_remove_device _ _ p evs h hres
  | finish p =>
    exact tasksOnce_finish_removing_device s s' p h hr
  | startAll =>
    cases hr
    exact tasksOnce_start s h
  | stopAll =>
    unfold stepOp at hr
    rcases hres : s.stop with e | pair
    · simp [hres, Except.map] at hr
    · obtain ⟨s1, evs⟩ := pair
      simp only [hres, Except.map] at hr
      injection hr with h2
      subst h2
      exact tasksOnce_stop _ _ evs h hres
  | initDevs ds =>
    cases hr
    exact tasksOnce_set_init_devices s ds h

theorem runOps_tasksOnce (ops : List WOp) :
    ∀ (s s' : GamepadsWatcher), TasksOnce s → runOps s ops = .ok s' →
    TasksOnce s' := by
  induction ops with
  | nil =>
    intro s s' h hr
    cases hr
    exact h
  | cons op rest ih =>
    intro s s' h hr
    unfold runOps at hr
    rcases hs : stepOp s op with e | s1
    · simp [hs] at hr
    · simp only [hs] at hr
      exact ih s1 s' (stepOp_tasksOnce s s1 op h hs) hr

theorem dictGet_eraseKey_self {α : Type} (m : List (String × α)) (k : String) :
    dictGet (eraseKey m k) k = none := by
  induction m with
  | nil => rfl
  | cons hd tl ih =>
    obtain ⟨a, b⟩ := hd
    by_cases ha : a = k <;> simp [eraseKey, dictGet, ha, ih]

theorem eraseKey_of_absent {α : Type} (m : List (String × α)) (k : String)
    (h : dictGet m k = none) : eraseKey m k = m := by
  induction m with
  | nil => rfl
  | cons hd tl ih =>
    obtain ⟨a, b⟩ := hd
    by_cases ha : a = k
    · simp [dictGet, ha] at h
    · simp only [dictGet, ha, if_false] at h
      simp [eraseKey, ha, ih h]

theorem dictSet_get_eq {α : Type} (m : List (String × α)) (k : String) (v : α)
    (h : dictGet m k = some v) : dictSet m k v = m := by
  induction m with
  | nil => simp [dictGet] at h
  | cons hd tl ih =>
    obtain ⟨a, b⟩ := hd
    by_cases ha : a = k
    · simp only [dictGet, ha, if_true] at h
      cases h
      simp [dictSet, ha]
    · simp only [dictGet, ha, if_false] at h
      simp [dictSet, ha, ih h]

theorem setTasks_self (s : GamepadsWatcher) : s.setTasks s.tasks = s := by
  cases s
  rfl

theorem unlock_idle_snd (l : IdleLock) : l.unlock_idle.2 = ⟨none⟩ := by
  obtain ⟨fd⟩ := l
  cases fd <;> rfl

theorem unlock_idle_count_call (l : IdleLock) :
    l.unlock_idle.1.count Ev.callUnlockIdle = 0 := by
  obtain ⟨fd⟩ := l
  cases fd <;> simp [IdleLock.unlock_idle]

theorem setActive_twice (w : GamepadsWatcher) (a b : Bool) :
    (w.setActive a).setActive b = w.setActive b := by
  cases w
  rfl

/-- C4: `lock_idle` and `unlock_idle` are idempotent: locking with a handle
already held is a no-op (so two consecutive `lock_idle` calls keep exactly
the one handle acquired by the first), unlocking with no handle held is a
no-op, and the single optional `fd` field can hold at most one handle. -/
theorem idleLock_idempotent (h h1 : Nat) (inh : Except Unit Nat) :
    IdleLock.lock_idle ⟨some h⟩ inh = ([], .ok ⟨some h⟩) ∧
    (IdleLock.lock_idle ⟨none⟩ (.ok h1)).2 = .ok ⟨some h1⟩ ∧
    IdleLock.unlock_idle ⟨none⟩ = ([], ⟨none⟩) ∧
    (IdleLock.unlock_idle (IdleLock.unlock_idle ⟨some h⟩).2).2 = ⟨none⟩ :=
  ⟨rfl, rfl, rfl, rfl⟩

/-- C1: a sampling tick of the bridge loop reads the activity flag and
resets it to false; if the flag was true it calls `lock_idle` (ending with
a held handle, given a successful `Inhibit`), otherwise it calls
`unlock_idle` (ending with no handle). -/
theorem bridge_tick_drives_lock (w : GamepadsWatcher) (l : IdleLock)
    (hnum : Nat) (inh : Except Unit Nat) (hinh : inh = .ok hnum) :
    (bridge_tick w l inh).2.1 = w.setActive false ∧
    (w.gamepad_active = true →
      Ev.callLockIdle ∈ (bridge_tick w l inh).1 ∧
      Ev.callUnlockIdle ∉ (bridge_tick w l inh).1 ∧
      ∃ fd, (bridge_tick w l inh).2.2 = .ok ⟨some fd⟩) ∧
    (w.gamepad_active = false →
      Ev.callUnlockIdle ∈ (bridge_tick w l inh).1 ∧
      Ev.callLockIdle ∉ (bridge_tick w l inh).1 ∧
      (bridge_tick w l inh).2.2 = .ok ⟨none⟩) := by
  subst hinh
  obtain ⟨fd⟩ := l
  cases ha : w.gamepad_active <;> cases fd <;>
    simp [bridge_tick, GamepadsWatcher.get_and_reset_active, ha,
      IdleLock.lock_idle, IdleLock.unlock_idle]

/-- Closed instance of `bridge_tick_drives_lock` at a concrete state. -/
theorem bridge_tick_drives_lock_witness :
    (bridge_tick ⟨true, true, [], [], 0⟩ ⟨none⟩ (Except.ok 5)).2.1 =
      GamepadsWatcher.setActive ⟨true, true, [], [], 0⟩ false ∧
    Ev.callLockIdle ∈ (bridge_tick ⟨true, true, [], [], 0⟩ ⟨none⟩ (Except.ok 5)).1 ∧
    ∃ fd, (bridge_tick ⟨true, true, [], [], 0⟩ ⟨none⟩ (Except.ok 5)).2.2 =
      .ok ⟨some fd⟩ := by
  have h := bridge_tick_drives_lock ⟨true, true, [], [], 0⟩ ⟨none⟩ 5
    (Except.ok 5) rfl
  exact ⟨h.1, (h.2.1 rfl).1, (h.2.1 rfl).2.2⟩

/-- C3: along every run of supervisor events from the freshly constructed
watcher, the task map binds each device path at most once, and `add_device`
on a path that currently holds a live task leaves the state untouched (it
only logs the duplicate warning), so it never creates a second task. -/
theorem supervisor_tasks_unique (ops : List WOp) (s : GamepadsWatcher)
    (h : runOps initialWatcher ops = .ok s) :
    (∀ p, countKey s.tasks p ≤ 1) ∧
    (∀ p t, dictGet s.tasks p = some (some t) →
      (s.add_device p).1 = s ∧
      (s.add_device p).2 =
        [Ev.logInfo "Adding device", Ev.logWarn "device is already present"]) := by
  constructor
  · exact runOps_tasksOnce ops initialWatcher s
      (fun p => by simp [initialWatcher, countKey]) h
  · intro p t hg
    constructor <;> simp [GamepadsWatcher.add_device, hg]

/-- Closed instance of `supervisor_tasks_unique`: a run that registers,
starts, duplicates, removes, finishes and re-adds one device path. -/
theorem supervisor_tasks_unique_witness :
    countKey (GamepadsWatcher.tasks
      ⟨false, true, [("a", some 3)], [("a", 2)], 4⟩) "a" ≤ 1 ∧
    (GamepadsWatcher.add_device
      ⟨false, true, [("a", some 3)], [("a", 2)], 4⟩ "a").1 =
      ⟨false, true, [("a", some 3)], [("a", 2)], 4⟩ := by
  have h := supervisor_tasks_unique
    [WOp.initDevs ["a"], WOp.startAll, WOp.add "a", WOp.remove "a",
     WOp.finish "a", WOp.add "a"]
    ⟨false, true, [("a", some 3)], [("a", 2)], 4⟩ (by decide)
  exact ⟨h.1 "a", (h.2 "a" 3 (by decide)).1⟩

theorem cancel_all_ok (vals : List (Option Nat))
    (h : ∀ v ∈ vals, v.isSome) :
    ∃ cevs, GamepadsWatcher.cancel_all vals = .ok cevs ∧
      ∀ t, some t ∈ vals → Ev.cancelTask t ∈ cevs := by
  induction vals with
  | nil => exact ⟨[], rfl, by simp⟩
  | cons v rest ih =>
    obtain ⟨cevs, hc, hmem⟩ := ih (fun v0 hv0 => h v0 (List.mem_cons_of_mem v hv0))
    rcases v with _ | t0
    · simpa using h none (List.mem_cons_self none rest)
    · refine ⟨Ev.cancelTask t0 :: cevs, ?_, ?_⟩
      · simp [GamepadsWatcher.cancel_all, hc]
      · intro t ht
        rcases List.mem_cons.mp ht with heq | hmem2
        · cases heq
          exact List.mem_cons_self _ _
        · exact List.mem_cons_of_mem _ (hmem t hmem2)

theorem cancel_all_error_of_none (vals : List (Option Nat))
    (h : none ∈ vals) :
    GamepadsWatcher.cancel_all vals = .error .attributeError := by
  induction vals with
  | nil => simp at h
  | cons v rest ih =>
    rcases v with _ | t0
    · rfl
    · have hr : none ∈ rest := by
        rcases List.mem_cons.mp h with heq | hmem
        · exact absurd heq (by simp)
        · exact hmem
      simp [GamepadsWatcher.cancel_all, ih hr]

/-- C9: when every entry in the task map holds an actual task, `stop` clears
the `started` flag, emits a cancellation for every running task, and awaits
every one of them (each cancelled task also appears under `gather`), so no
monitor task outlives the call. -/
theorem stop_cancels_and_awaits_all (s : GamepadsWatcher)
    (h : ∀ e ∈ s.tasks, (e.2).isSome) :
    ∃ evs, s.stop = .ok (s.setStarted false, evs) ∧
      ∀ p t, (p, some t) ∈ s.tasks →
        Ev.cancelTask t ∈ evs ∧ Ev.awaitTask t ∈ evs := by
  have hvals : ∀ v ∈ s.tasks.map Prod.snd, v.isSome := by
    intro v hv
    obtain ⟨e, he, rfl⟩ := List.mem_map.mp hv
    exact h e he
  obtain ⟨cevs, hc, hmem⟩ := cancel_all_ok (s.tasks.map Prod.snd) hvals
  refine ⟨cevs ++ ((s.tasks.map Prod.snd).filterMap id).map Ev.awaitTask,
    ?_, ?_⟩
  · simp [GamepadsWatcher.stop, hc]
  · intro p t hpt
    have hsnd : some t ∈ s.tasks.map Prod.snd :=
      List.mem_map.mpr ⟨(p, some t), hpt, rfl⟩
    constructor
    · exact List.mem_append.mpr (Or.inl (hmem t hsnd))
    · refine List.mem_append.mpr (Or.inr ?_)
      exact List.mem_map.mpr ⟨t, List.mem_filterMap.mpr ⟨some t, hsnd, rfl⟩, rfl⟩

/-- Closed instance of `stop_cancels_and_awaits_all`: two running tasks. -/
theorem stop_cancels_and_awaits_all_witness :
    ∃ evs, GamepadsWatcher.stop
        ⟨false, true, [("a", some 1), ("b", some 3)], [("a", 0), ("b", 2)], 4⟩ =
      .ok (GamepadsWatcher.setStarted
        ⟨false, true, [("a", some 1), ("b", some 3)], [("a", 0), ("b", 2)], 4⟩
        false, evs) ∧
      Ev.cancelTask 1 ∈ evs ∧ Ev.awaitTask 1 ∈ evs ∧
      Ev.cancelTask 3 ∈ evs ∧ Ev.awaitTask 3 ∈ evs := by
  obtain ⟨evs, hok, hall⟩ := stop_cancels_and_awaits_all
    ⟨false, true, [("a", some 1), ("b", some 3)], [("a", 0), ("b", 2)], 4⟩
    (by decide)
  have h1 := hall "a" 1 (by decide)
  have h3 := hall "b" 3 (by decide)
  exact ⟨evs, hok, h1.1, h1.2, h3.1, h3.2⟩

/-- C10: `stop` is only safe when every task-map entry is a real task: a
registered-not-started (`None`) entry, as left by `set_init_devices` or by
`add_device` before the global start, makes the cancellation loop raise
`AttributeError` (`None` has no `cancel`) instead of completing shutdown. -/
theorem stop_fails_on_nil_entry (s : GamepadsWatcher) (p : String)
    (h : (p, none) ∈ s.tasks) :
    s.stop = .error PyErr.attributeError := by
  have hnone : (none : Option Nat) ∈ s.tasks.map Prod.snd :=
    List.mem_map.mpr ⟨(p, none), h, rfl⟩
  simp [GamepadsWatcher.stop, cancel_all_error_of_none _ hnone]

/-- Closed instance of `stop_fails_on_nil_entry`: stopping right after
initial discovery registered one device. -/
theorem stop_fails_on_nil_entry_witness :
    GamepadsWatcher.stop (GamepadsWatcher.set_init_devices initialWatcher
      ["/dev/input/event3"]) = .error PyErr.attributeError :=
  stop_fails_on_nil_entry _ "/dev/input/event3" (by decide)

/-- C6: a monitor task's exit handler logs at info level for errno 19 ("no
such device") and for cancellation, and at error level for any other read
error — returning normally in all three cases — and the done callback
removes the path's entry from the task map (everything else untouched). -/
theorem monitor_exit_and_cleanup (n : Nat) (s : GamepadsWatcher) (p : String)
    (hn : n ≠ 19) (hp : (dictGet s.tasks p).isSome) :
    monitor_gamepad_events_exit (.osError 19) =
      [Ev.logInfo "disconnected, exit monitor"] ∧
    monitor_gamepad_events_exit (.osError n) =
      [Ev.logError "monitor failed with error"] ∧
    monitor_gamepad_events_exit .cancelled = [Ev.logInfo "monitor exits"] ∧
    ∃ s', s.finish_removing_device p = .ok s' ∧
      dictGet s'.tasks p = none ∧ s'.devices = s.devices ∧
      s'.started = s.started ∧ s'.gamepad_active = s.gamepad_active := by
  refine ⟨rfl, by simp [monitor_gamepad_events_exit, hn], rfl,
    s.setTasks (eraseKey s.tasks p), ?_, ?_, rfl, rfl, rfl⟩
  · simp [GamepadsWatcher.finish_removing_device, hp]
  · exact dictGet_eraseKey_self s.tasks p

/-- Closed instance of `monitor_exit_and_cleanup` at errno 5 and a
one-entry task map. -/
theorem monitor_exit_and_cleanup_witness :
    monitor_gamepad_events_exit (.osError 5) =
      [Ev.logError "monitor failed with error"] ∧
    ∃ s', GamepadsWatcher.finish_removing_device
        ⟨false, true, [("a", some 1)], [], 2⟩ "a" = .ok s' ∧
      dictGet s'.tasks "a" = none := by
  obtain ⟨h19, h5, hc, s', hfin, hget, hrest⟩ :=
    monitor_exit_and_cleanup 5 ⟨false, true, [("a", some 1)], [], 2⟩ "a"
      (by decide) (by decide)
  exact ⟨h5, s', hfin, hget⟩

/-- C7: `remove_device` by case.  A registered-not-started entry is dropped
outright; a running entry has its task cancelled and its read-handle closed
while the task-map entry survives until the done callback erases it; an
absent path — in particular the same path again after the callback ran — is
a no-op with no error. -/
theorem remove_device_cases (s : GamepadsWatcher) (p : String) :
    (dictGet s.tasks p = some none →
      s.remove_device p =
        .ok (s.setTasks (eraseKey s.tasks p), [Ev.logInfo "Removing device"]) ∧
      dictGet (s.setTasks (eraseKey s.tasks p)).tasks p = none) ∧
    (∀ t h0, dictGet s.tasks p = some (some t) →
      dictGet s.devices p = some h0 →
      s.remove_device p = .ok (s.setDevices (eraseKey s.devices p),
        [Ev.logInfo "Removing device", Ev.cancelTask t, Ev.closeFd h0]) ∧
      dictGet (s.setDevices (eraseKey s.devices p)).tasks p = some (some t) ∧
      ∀ s2, (s.setDevices (eraseKey s.devices p)).finish_removing_device p =
          .ok s2 →
        dictGet s2.tasks p = none ∧
        s2.remove_device p = .ok (s2, [Ev.logInfo "Removing device"])) ∧
    (dictGet s.tasks p = none →
      s.remove_device p = .ok (s, [Ev.logInfo "Removing device"])) := by
  refine ⟨?_, ?_, ?_⟩
  · intro hg
    refine ⟨by simp [GamepadsWatcher.remove_device, hg], ?_⟩
    exact dictGet_eraseKey_self s.tasks p
  · intro t h0 hg hd
    refine ⟨by simp [GamepadsWatcher.remove_device, hg, hd], hg, ?_⟩
    intro s2 hfin
    have hs2 : s2 = (s.setDevices (eraseKey s.devices p)).setTasks
        (eraseKey s.tasks p) := by
      have : (dictGet (s.setDevices (eraseKey s.devices p)).tasks p).isSome := by
        simp [GamepadsWatcher.setDevices, hg]
      simp only [GamepadsWatcher.finish_removing_device, this, if_true] at hfin
      injection hfin with h2
      exact h2.symm
    subst hs2
    constructor
    · exact dictGet_eraseKey_self s.tasks p
    · have hnone : dictGet ((s.setDevices (eraseKey s.devices p)).setTasks
          (eraseKey s.tasks p)).tasks p = none :=
        dictGet_eraseKey_self s.tasks p
      simp [GamepadsWatcher.remove_device, hnone]
  · intro hg
    simp [GamepadsWatcher.remove_device, hg]

/-- Closed instance of `remove_device_cases`: removing a running device,
running its done callback, then removing it a second time. -/
theorem remove_device_cases_witness :
    GamepadsWatcher.remove_device
      ⟨false, true, [("a", some 1)], [("a", 0)], 2⟩ "a" =
      .ok (⟨false, true, [("a", some 1)], [], 2⟩,
        [Ev.logInfo "Removing device", Ev.cancelTask 1, Ev.closeFd 0]) ∧
    dictGet (GamepadsWatcher.tasks ⟨false, true, [], [], 2⟩) "a" = none ∧
    GamepadsWatcher.remove_device ⟨false, true, [], [], 2⟩ "a" =
      .ok (⟨false, true, [], [], 2⟩, [Ev.logInfo "Removing device"]) := by
  have h := (remove_device_cases
    ⟨false, true, [("a", some 1)], [("a", 0)], 2⟩ "a").2.1 1 0
    (by decide) (by decide)
  have h2 := h.2.2 ⟨false, true, [], [], 2⟩ (by decide)
  exact ⟨h.1, h2.1, h2.2⟩

/-- C8 as stated is false on the code: for a registered-not-started entry
(`tasks["p"] = None`), `tasks.get(device, None)` is `None`, so `add_device`
logs no warning; with the supervisor not started it silently re-registers
the path, and with it started it silently creates a monitor task (the state
changes). -/
theorem add_device_registered_silent :
    (GamepadsWatcher.add_device ⟨false, false, [("p", none)], [], 0⟩ "p").2 =
      [Ev.logInfo "Adding device"] ∧
    (GamepadsWatcher.add_device ⟨false, true, [("p", none)], [], 0⟩ "p").1 ≠
      (⟨false, true, [("p", none)], [], 0⟩ : GamepadsWatcher) := by
  exact ⟨rfl, by decide⟩

/-- C8 amended: only a path holding a live task makes `add_device` log the
duplicate warning and leave the state unchanged; a registered-not-started
path draws no warning — before the global start it is re-registered with the
state unchanged, after the global start a monitor task is created. -/
theorem add_device_duplicate_behavior (s : GamepadsWatcher) (p : String) :
    (∀ t, dictGet s.tasks p = some (some t) →
      s.add_device p =
        (s, [Ev.logInfo "Adding device",
             Ev.logWarn "device is already present"])) ∧
    (dictGet s.tasks p = some none → s.started = false →
      s.add_device p = (s, [Ev.logInfo "Adding device"])) ∧
    (dictGet s.tasks p = some none → s.started = true →
      s.add_device p = (s.create_monitor_task p,
        [Ev.logInfo "Adding device"])) := by
  refine ⟨?_, ?_, ?_⟩
  · intro t hg
    simp [GamepadsWatcher.add_device, hg]
  · intro hg hs
    have hset : dictSet s.tasks p none = s.tasks := dictSet_get_eq _ _ _ hg
    simp [GamepadsWatcher.add_device, hg, hs, hset, setTasks_self]
  · intro hg hs
    simp [GamepadsWatcher.add_device, hg, hs]

/-- Closed instance of `add_device_duplicate_behavior`: re-adding a
registered-not-started path before the global start. -/
theorem add_device_duplicate_behavior_witness :
    GamepadsWatcher.add_device ⟨false, false, [("p", none)], [], 0⟩ "p" =
      (⟨false, false, [("p", none)], [], 0⟩, [Ev.logInfo "Adding device"]) :=
  (add_device_duplicate_behavior ⟨false, false, [("p", none)], [], 0⟩
    "p").2.1 (by decide) rfl

/-- C5 as stated is false on the code: `lock_idle` has no exception handler,
so a failed `Inhibit` on the first tick propagates out of the loop — no
error-level log is emitted (the whole trace is the `callLockIdle` and the
info-level "Inhibiting idle" line), the cancellation handler never runs, and
the second scheduled tick is left unprocessed instead of retrying. -/
theorem lock_failure_aborts_loop :
    inhibit_idle_when_gamepads_active ⟨true, false, [], [], 0⟩ ⟨none⟩
        [(true, Except.error ()), (true, Except.ok 7)] =
      ([Ev.callLockIdle, Ev.logInfo "Inhibiting idle"], [],
       .raised ⟨false, false, [], [], 0⟩ ⟨none⟩ [(true, Except.ok 7)]) := by
  decide

/-- C5 amended: when the handle is unset and the tick's `Inhibit` call
fails, the lock handle is indeed left unset, but the dbus exception
propagates: the run ends immediately in `raised` with the remaining ticks
unprocessed, no error-level log, and no final-unlock handler events. -/
theorem lock_failure_propagates (w : GamepadsWatcher) (l : IdleLock)
    (rest : List (Bool × Except Unit Nat)) (hfd : l.fd = none) :
    inhibit_idle_when_gamepads_active w l ((true, Except.error ()) :: rest) =
      ([Ev.callLockIdle, Ev.logInfo "Inhibiting idle"], [],
       .raised (w.setActive false) l rest) := by
  obtain ⟨fd⟩ := l
  simp only [IdleLock.fd] at hfd
  subst hfd
  cases w
  simp [inhibit_idle_when_gamepads_active, bridge_tick,
    GamepadsWatcher.get_and_reset_active, GamepadsWatcher.setActive,
    IdleLock.lock_idle]

/-- Closed instance of `lock_failure_propagates`. -/
theorem lock_failure_propagates_witness :
    inhibit_idle_when_gamepads_active ⟨false, true, [], [], 1⟩ ⟨none⟩
        [(true, Except.error ())] =
      ([Ev.callLockIdle, Ev.logInfo "Inhibiting idle"], [],
       .raised (GamepadsWatcher.setActive ⟨false, true, [], [], 1⟩ false)
         ⟨none⟩ []) :=
  lock_failure_propagates ⟨false, true, [], [], 1⟩ ⟨none⟩ [] rfl

/-- C2: every run of the bridge loop that ends in cancellation finishes with
the `CancelledError` handler performing exactly one final `unlock_idle`
call, and terminates with no inhibition handle held. -/
theorem bridge_cancel_final_unlock :
    ∀ (ticks : List (Bool × Except Unit Nat)) (w : GamepadsWatcher)
      (l : IdleLock) (evs fevs : List Ev) (w' : GamepadsWatcher)
      (l' : IdleLock),
      inhibit_idle_when_gamepads_active w l ticks =
        (evs, fevs, .cancelled w' l') →
      l'.fd = none ∧ fevs.count Ev.callUnlockIdle = 1 ∧
      ∃ r, fevs = Ev.logInfo "Inhibit task exits" :: Ev.callUnlockIdle :: r := by
  intro ticks
  induction ticks with
  | nil =>
    intro w l evs fevs w' l' h
    simp only [inhibit_idle_when_gamepads_active, Prod.mk.injEq] at h
    obtain ⟨h1, h2, h3⟩ := h
    injection h3 with h3w h3l
    subst h3l
    subst h2
    refine ⟨by rw [unlock_idle_snd l], ?_, l.unlock_idle.1, rfl⟩
    simp [List.count_cons, unlock_idle_count_call l]
  | cons head rest ih =>
    intro w l evs fevs w' l' h
    obtain ⟨a, inh⟩ := head
    simp only [inhibit_idle_when_gamepads_active] at h
    cases hb : (bridge_tick (w.setActive (w.gamepad_active || a)) l inh).2.2 with
    | raised =>
      rw [hb] at h
      simp only [Prod.mk.injEq] at h
      exact absurd h.2.2 (by simp)
    | ok l2 =>
      rw [hb] at h
      simp only [Prod.mk.injEq] at h
      obtain ⟨h1, h2, h3⟩ := h
      exact ih (bridge_tick (w.setActive (w.gamepad_active || a)) l inh).2.1
        l2 _ fevs w' l' (by rw [← h2, ← h3])

/-- Closed instance of `bridge_cancel_final_unlock`: a two-tick run (one
active, one inactive) cancelled at its third sleep. -/
theorem bridge_cancel_final_unlock_witness :
    IdleLock.fd ⟨none⟩ = none ∧
    ([Ev.logInfo "Inhibit task exits", Ev.callUnlockIdle]).count
      Ev.callUnlockIdle = 1 ∧
    ∃ r, [Ev.logInfo "Inhibit task exits", Ev.callUnlockIdle] =
      Ev.logInfo "Inhibit task exits" :: Ev.callUnlockIdle :: r :=
  bridge_cancel_final_unlock [(true, Except.ok 7), (false, Except.ok 9)]
    ⟨true, false, [], [], 0⟩ ⟨none⟩
    [Ev.callLockIdle, Ev.logInfo "Inhibiting idle", Ev.callUnlockIdle,
     Ev.logInfo "Releasing idle lock", Ev.closeFd 7]
    [Ev.logInfo "Inhibit task exits", Ev.callUnlockIdle]
    ⟨false, false, [], [], 0⟩ ⟨none⟩ (by decide)
